import Mathlib

/-!
Verification of the `RecaptchaSolver` class (RecaptchaSolver.py).

The Python class drives a browser page through an audio reCAPTCHA challenge.
We embed it shallowly: the page-automation capability (Playwright) and the
transcription capability (urllib / pydub / speech_recognition) are modelled as
oracle structures whose fields give the outcome of each external call
(`Except String α`: `.error` models a raised exception, carrying its message).
The methods of the solver become computations in a monad `M` that threads a
filesystem state (which temp files exist) and records a trace of the external
actions performed, so that control-flow claims ("never clicks X", "fills
before verifying") become statements about the trace.
-/

namespace Solver

/-- One observable external action performed by the solver. -/
inductive Action : Type where
  | waitForSelector (sel : String) (timeout : Option Nat) (state : Option String)
  | contentFrame
  | click (sel : String)
  | fill (sel : String) (value : String)
  | getAttribute (attrName : String)
  | isVisible
  | querySelector (sel : String)
  | waitForTimeout (ms : Nat)
  | urlretrieve (url : String) (path : String)
  | fromMp3 (path : String)
  | exportWav (path : String)
  | recordWav (path : String)
  | recognize
  | removeAttempt (path : String)
deriving DecidableEq, Repr

/-- Filesystem model: which paths currently exist. -/
abbrev FS := String → Bool

def FS.create (fs : FS) (p : String) : FS := fun q => if q = p then true else fs q

def FS.delete (fs : FS) (p : String) : FS := fun q => if q = p then false else fs q

/-- Outcome of running a solver computation: a result (or raised exception
message), the final filesystem, and the trace of actions performed. -/
structure MOut (α : Type) where
  res : Except String α
  fs : FS
  tr : List Action

/-- The solver monad: filesystem-state + action-trace + exceptions. -/
def M (α : Type) : Type := FS → MOut α

def M.pure (a : α) : M α := fun fs => ⟨.ok a, fs, []⟩

def M.bind (m : M α) (f : α → M β) : M β := fun fs =>
  match (m fs).res with
  | .ok a => ⟨(f a (m fs).fs).res, (f a (m fs).fs).fs, (m fs).tr ++ (f a (m fs).fs).tr⟩
  | .error e => ⟨.error e, (m fs).fs, (m fs).tr⟩

instance : Monad M where
  pure := M.pure
  bind := M.bind

/-- `raise Exception(msg)`. -/
def M.throw (msg : String) : M α := fun fs => ⟨.error msg, fs, []⟩

/-- `try: ... except Exception as e: ...` -/
def M.tryCatch (m : M α) (h : String → M α) : M α := fun fs =>
  match (m fs).res with
  | .ok a => ⟨.ok a, (m fs).fs, (m fs).tr⟩
  | .error e =>
      ⟨(h e (m fs).fs).res, (h e (m fs).fs).fs, (m fs).tr ++ (h e (m fs).fs).tr⟩

/-- `try: body finally: fin` — `fin` always runs; an exception raised by
`fin` replaces the outcome of the body, otherwise that outcome stands. -/
def M.tryFinally (body : M α) (fin : M Unit) : M α := fun fs =>
  ⟨match (fin (body fs).fs).res with
   | .ok _ => (body fs).res
   | .error e2 => .error e2,
   (fin (body fs).fs).fs,
   (body fs).tr ++ (fin (body fs).fs).tr⟩

/-- Embed the outcome of an external call. -/
def liftE (x : Except String α) : M α := fun fs => ⟨x, fs, []⟩

/-- Record an action in the trace. -/
def logA (a : Action) : M Unit := fun fs => ⟨.ok (), fs, [a]⟩

def getFS : M FS := fun fs => ⟨.ok fs, fs, []⟩

def modifyFS (f : FS → FS) : M Unit := fun fs => ⟨.ok (), f fs, []⟩

/- Run-unfolding lemmas: applying a composite computation to a filesystem. -/

theorem M.bind_eq (m : M α) (f : α → M β) : m >>= f = M.bind m f := rfl

theorem M.pure_eq (a : α) : (Pure.pure a : M α) = M.pure a := rfl

theorem M.bind_ok {m : M α} {fs : FS} {x : α} (f : α → M β) (h : (m fs).res = .ok x) :
    M.bind m f fs =
      ⟨(f x (m fs).fs).res, (f x (m fs).fs).fs, (m fs).tr ++ (f x (m fs).fs).tr⟩ := by
  unfold M.bind; rw [h]

theorem M.bind_err {m : M α} {fs : FS} {e : String} (f : α → M β)
    (h : (m fs).res = .error e) :
    M.bind m f fs = ⟨.error e, (m fs).fs, (m fs).tr⟩ := by
  unfold M.bind; rw [h]

theorem M.tryCatch_ok {m : M α} {fs : FS} {x : α} (hnd : String → M α)
    (h : (m fs).res = .ok x) :
    M.tryCatch m hnd fs = ⟨.ok x, (m fs).fs, (m fs).tr⟩ := by
  unfold M.tryCatch; rw [h]

theorem M.tryCatch_err {m : M α} {fs : FS} {e : String} (hnd : String → M α)
    (h : (m fs).res = .error e) :
    M.tryCatch m hnd fs =
      ⟨(hnd e (m fs).fs).res, (hnd e (m fs).fs).fs, (m fs).tr ++ (hnd e (m fs).fs).tr⟩ := by
  unfold M.tryCatch; rw [h]

theorem M.tryFinally_run (body : M α) (fin : M Unit) (fs : FS) :
    M.tryFinally body fin fs =
      ⟨match (fin (body fs).fs).res with
       | .ok _ => (body fs).res
       | .error e2 => .error e2,
       (fin (body fs).fs).fs,
       (body fs).tr ++ (fin (body fs).fs).tr⟩ := rfl

/-!
## The page-automation capability

`Elem` models a Playwright `ElementHandle`, `Frame` a `Frame`, `Page` the page.
Each method is an oracle giving the outcome of that call.
-/

mutual
inductive Elem : Type where
  | mk (getAttr : String → Except String (Option String))
       (visible : Except String Bool)
       (contentF : Except String (Option Frame))
inductive Frame : Type where
  | mk (waitForSel : String → Option Nat → Option String → Except String (Option Elem))
       (clickO : String → Except String Unit)
       (fillO : String → String → Except String Unit)
       (querySel : String → Except String (Option Elem))
end

def Elem.getAttr : Elem → String → Except String (Option String)
  | .mk g _ _ => g

def Elem.visible : Elem → Except String Bool
  | .mk _ v _ => v

def Elem.contentF : Elem → Except String (Option Frame)
  | .mk _ _ c => c

def Frame.waitForSel : Frame → String → Option Nat → Option String → Except String (Option Elem)
  | .mk w _ _ _ => w

def Frame.clickO : Frame → String → Except String Unit
  | .mk _ c _ _ => c

def Frame.fillO : Frame → String → String → Except String Unit
  | .mk _ _ f _ => f

def Frame.querySel : Frame → String → Except String (Option Elem)
  | .mk _ _ _ q => q

structure Page where
  waitForSel : String → Option Nat → Except String (Option Elem)
  waitForTO : Nat → Except String Unit

/- Traced wrappers: each logs the action, then consults the oracle. -/

def pageWaitForSelector (p : Page) (sel : String) (timeout : Option Nat) :
    M (Option Elem) := do
  logA (.waitForSelector sel timeout none)
  liftE (p.waitForSel sel timeout)

def pageWaitForTimeout (p : Page) (ms : Nat) : M Unit := do
  logA (.waitForTimeout ms)
  liftE (p.waitForTO ms)

def frameWaitForSelector (f : Frame) (sel : String) (timeout : Option Nat)
    (state : Option String) : M (Option Elem) := do
  logA (.waitForSelector sel timeout state)
  liftE (f.waitForSel sel timeout state)

def frameClick (f : Frame) (sel : String) : M Unit := do
  logA (.click sel)
  liftE (f.clickO sel)

def frameFill (f : Frame) (sel value : String) : M Unit := do
  logA (.fill sel value)
  liftE (f.fillO sel value)

def frameQuerySelector (f : Frame) (sel : String) : M (Option Elem) := do
  logA (.querySelector sel)
  liftE (f.querySel sel)

def elemContentFrame (e : Elem) : M (Option Frame) := do
  logA .contentFrame
  liftE e.contentF

def elemGetAttribute (e : Elem) (attrName : String) : M (Option String) := do
  logA (.getAttribute attrName)
  liftE (e.getAttr attrName)

def elemIsVisible (e : Elem) : M Bool := do
  logA .isVisible
  liftE e.visible

/-!
## RecaptchaSolver constants and selector table
-/

def TEMP_DIR : String := "/tmp"

def TIMEOUT_STANDARD : Nat := 7000

def TIMEOUT_SHORT : Nat := 1000

def TIMEOUT_DETECTION : Nat := 50

/-- `get_selector`: the fixed role-to-CSS-selector table, `dict.get(_, "")`. -/
def get_selector (selector : String) : String :=
  if selector = "checkbox" then ".rc-anchor-content"
  else if selector = "audio_challenge" then "#recaptcha-audio-button"
  else if selector = "audio_response" then "#audio-response"
  else if selector = "verify_button" then "#recaptcha-verify-button"
  else if selector = "token" then "#recaptcha-token"
  else if selector = "iframe" then "iframe[title=\x27reCAPTCHA\x27]"
  else if selector = "challenge_frame" then "iframe[title*=\x27recaptcha challenge\x27]"
  else if selector = "checkmark" then ".recaptcha-checkbox-checkmark"
  else if selector = "error_message" then "text=\x27Try again later\x27"
  else if selector = "audio_source" then "#audio-source"
  else ""

/-- Python `str.lower()` (ASCII case mapping suffices for this program). -/
def strLower (s : String) : String := String.mk (s.data.map Char.toLower)

/-!
## Status checks: `is_solved`, `is_detected`, `get_token`
-/

/-- `is_solved`: best-effort check that the captcha is solved. -/
def is_solved (p : Page) : M Bool :=
  M.tryCatch
    (do
      let iframe? ← pageWaitForSelector p (get_selector "iframe") (some TIMEOUT_SHORT)
      match iframe? with
      | none => M.pure false
      | some iframe => do
        let frame? ← elemContentFrame iframe
        match frame? with
        | none => M.pure false
        | some frame => do
          let checkmark? ← frameWaitForSelector frame (get_selector "checkmark")
              (some TIMEOUT_SHORT) none
          match checkmark? with
          | none => M.pure false
          | some checkmark => do
            let style ← elemGetAttribute checkmark "style"
            M.pure style.isSome)
    (fun _ => M.pure false)

/-- `is_detected`: best-effort check that the bot has been detected. -/
def is_detected (p : Page) : M Bool :=
  M.tryCatch
    (do
      let challenge? ← pageWaitForSelector p (get_selector "challenge_frame")
          (some TIMEOUT_DETECTION)
      match challenge? with
      | none => M.pure false
      | some challenge => do
        let frame? ← elemContentFrame challenge
        match frame? with
        | none => M.pure false
        | some frame => do
          let errorMessage? ← frameQuerySelector frame (get_selector "error_message")
          match errorMessage? with
          | none => M.pure false
          | some errorMessage => elemIsVisible errorMessage)
    (fun _ => M.pure false)

/-- `get_token`: best-effort read of the reCAPTCHA token; note both waits are
issued with no timeout argument. -/
def get_token (p : Page) : M (Option String) :=
  M.tryCatch
    (do
      let challenge? ← pageWaitForSelector p (get_selector "challenge_frame") none
      match challenge? with
      | none => M.pure none
      | some challenge => do
        let frame? ← elemContentFrame challenge
        match frame? with
        | none => M.pure none
        | some frame => do
          let tokenElement? ← frameWaitForSelector frame (get_selector "token") none none
          match tokenElement? with
          | none => M.pure none
          | some tokenElement => elemGetAttribute tokenElement "value")
    (fun _ => M.pure none)

/-!
## The transcription step: `_process_audio_challenge`

Oracles for `urllib.request.urlretrieve`, `pydub` and `speech_recognition`,
plus the two `random.randrange(1,1000)` draws and whether `os.remove`
succeeds on a given path (an `OSError` is swallowed by the code).
-/

structure AudioEnv where
  rand1 : Nat
  rand2 : Nat
  urlretrieveO : String → String → Except String Unit
  fromMp3O : String → Except String Unit
  exportWavO : String → Except String Unit
  recordWavO : String → Except String Unit
  recognizeGoogle : Except String String
  removeOk : String → Bool

/-- The `try:` body of `_process_audio_challenge`: download the mp3, convert
to wav, record it, and send it to the remote recognizer. Successful
`urlretrieve` / `export` calls create their output file. -/
def processAudioBody (env : AudioEnv) (audio_url mp3_path wav_path : String) :
    M String := do
  logA (.urlretrieve audio_url mp3_path)
  liftE (env.urlretrieveO audio_url mp3_path)
  modifyFS (fun fs => fs.create mp3_path)
  logA (.fromMp3 mp3_path)
  liftE (env.fromMp3O mp3_path)
  logA (.exportWav wav_path)
  liftE (env.exportWavO wav_path)
  modifyFS (fun fs => fs.create wav_path)
  logA (.recordWav wav_path)
  liftE (env.recordWavO wav_path)
  logA .recognize
  liftE env.recognizeGoogle

/-- The `finally:` block: for each path, if it exists attempt `os.remove`,
swallowing a failure (`OSError`) of the removal itself. -/
def cleanupTemp (env : AudioEnv) : List String → M Unit
  | [] => M.pure ()
  | p :: rest => do
      let fs ← getFS
      if fs p then do
        logA (.removeAttempt p)
        if env.removeOk p then modifyFS (fun g => g.delete p) else M.pure ()
      else M.pure ()
      cleanupTemp env rest

/-- Temp-file path for the downloaded mp3: `os.path.join(TEMP_DIR, f"{r}.mp3")`. -/
def mp3Path (env : AudioEnv) : String := TEMP_DIR ++ "/" ++ toString env.rand1 ++ ".mp3"

/-- Temp-file path for the converted wav. -/
def wavPath (env : AudioEnv) : String := TEMP_DIR ++ "/" ++ toString env.rand2 ++ ".wav"

/-- `_process_audio_challenge`: choose the two temp paths, then run the body
under a `finally:` that best-effort deletes both temp files. -/
def process_audio_challenge (env : AudioEnv) (audio_url : String) : M String :=
  M.tryFinally (processAudioBody env audio_url (mp3Path env) (wavPath env))
    (cleanupTemp env [mp3Path env, wavPath env])

/-!
## `solveCaptcha`
-/

/-- The `try:` block of `solveCaptcha` (steps 8–12): wait for the audio
source element, read its `src` URL (empty or absent URL fails), transcribe,
fill the response field with the lower-cased text, click verify, pause, and
re-check the solved state. `frame` is the content frame of the challenge frame. -/
def audioPhase (p : Page) (env : AudioEnv) (frame : Frame) : M Unit := do
  let audioElement? ← frameWaitForSelector frame (get_selector "audio_source")
      (some TIMEOUT_STANDARD) (some "attached")
  match audioElement? with
  | none => M.throw "Cannot find audio source element"
  | some audioElement => do
    let audioSource? ← elemGetAttribute audioElement "src"
    match audioSource? with
    | none => M.throw "Audio source URL not found"
    | some audioSource =>
      if audioSource = "" then M.throw "Audio source URL not found"
      else do
        let textResponse ← process_audio_challenge env audioSource
        frameFill frame (get_selector "audio_response") (strLower textResponse)
        frameClick frame (get_selector "verify_button")
        pageWaitForTimeout p 400
        let solved ← is_solved p
        if solved then M.pure () else M.throw "Failed to solve the captcha"

/-- `solveCaptcha`: the end-to-end solve flow of RecaptchaSolver.py. -/
def solveCaptcha (p : Page) (env : AudioEnv) : M Unit := do
  let iframeHandle? ← pageWaitForSelector p (get_selector "iframe") (some TIMEOUT_STANDARD)
  match iframeHandle? with
  | none => M.throw "Cannot find reCAPTCHA iframe"
  | some iframeHandle => do
    let frame? ← elemContentFrame iframeHandle
    match frame? with
    | none => M.throw "Cannot access iframe content"
    | some frame => do
      let _ ← frameWaitForSelector frame (get_selector "checkbox") (some TIMEOUT_STANDARD) none
      frameClick frame (get_selector "checkbox")
      let solved ← is_solved p
      if solved then M.pure ()
      else do
        let challengeFrame? ← pageWaitForSelector p (get_selector "challenge_frame")
            (some TIMEOUT_STANDARD)
        match challengeFrame? with
        | none => M.throw "Cannot find challenge iframe"
        | some challengeFrame => do
          let frame2? ← elemContentFrame challengeFrame
          match frame2? with
          | none => M.throw "Cannot access challenge iframe"
          | some frame2 => do
            let _ ← frameWaitForSelector frame2 (get_selector "audio_challenge")
                (some TIMEOUT_STANDARD) none
            frameClick frame2 (get_selector "audio_challenge")
            pageWaitForTimeout p 300
            let detected ← is_detected p
            if detected then M.throw "Captcha detected bot behavior"
            else
              M.tryCatch (audioPhase p env frame2)
                (fun e => M.throw ("Audio challenge failed: " ++ e))

/-!
## Concrete test pages and environments
-/

/-- The empty filesystem. -/
def fs0 : FS := fun _ => false

/-- An element with no attributes, not visible, no content frame. -/
def dummyElem : Elem := .mk (fun _ => .ok none) (.ok false) (.ok none)

/-- A checkmark whose style attribute is present and non-empty. -/
def checkedElem : Elem :=
  .mk (fun n => if n = "style" then .ok (some "display: block") else .ok none)
    (.ok true) (.ok none)

/-- A checkmark with no style attribute. -/
def noStyleElem : Elem := .mk (fun _ => .ok none) (.ok true) (.ok none)

/-- A checkmark whose style attribute is present but the empty string. -/
def emptyStyleElem : Elem :=
  .mk (fun n => if n = "style" then .ok (some "") else .ok none) (.ok true) (.ok none)

/-- A visible error-message element. -/
def visibleErrElem : Elem := .mk (fun _ => .ok none) (.ok true) (.ok none)

/-- Anchor frame whose checkmark is `cm`; the checkbox is present. -/
def anchorFrame (cm : Elem) : Frame :=
  .mk (fun sel _ _ =>
        if sel = get_selector "checkbox" then .ok (some dummyElem)
        else if sel = get_selector "checkmark" then .ok (some cm)
        else .error "Timeout exceeded")
    (fun _ => .ok ()) (fun _ _ => .ok ()) (fun _ => .ok none)

/-- The element whose `src` attribute is the audio URL. -/
def audioElem : Elem :=
  .mk (fun n => if n = "src" then .ok (some "http://x/a.mp3") else .ok none)
    (.ok false) (.ok none)

/-- Challenge frame: audio button and audio source present; the
error-message query yields `err` (`none` for the undetected variant). -/
def challengeFrameOf (err : Option Elem) : Frame :=
  .mk (fun sel _ _ =>
        if sel = get_selector "audio_challenge" then .ok (some dummyElem)
        else if sel = get_selector "audio_source" then .ok (some audioElem)
        else if sel = get_selector "token" then .ok (some dummyElem)
        else .error "Timeout exceeded")
    (fun _ => .ok ()) (fun _ _ => .ok ())
    (fun sel => if sel = get_selector "error_message" then .ok err else .ok none)

/-- An iframe handle wrapping content frame `f`. -/
def frameElem (f : Frame) : Elem := .mk (fun _ => .ok none) (.ok true) (.ok (some f))

/-- A page whose anchor checkmark is `cm` and where the error-message query
inside the challenge frame yields `err`. -/
def mkPage (cm : Elem) (err : Option Elem) : Page :=
  ⟨fun sel _ =>
    if sel = get_selector "iframe" then .ok (some (frameElem (anchorFrame cm)))
    else if sel = get_selector "challenge_frame" then
      .ok (some (frameElem (challengeFrameOf err)))
    else .error "Timeout exceeded",
   fun _ => .ok ()⟩

/-- Page solved by the checkbox click alone. -/
def pSolved : Page := mkPage checkedElem none

/-- Page that reaches the audio challenge (never solved, never detected). -/
def pAudio : Page := mkPage noStyleElem none

/-- Page that flags bot detection after the audio-mode click. -/
def pDetected : Page := mkPage noStyleElem (some visibleErrElem)

/-- Page whose checkmark exists but has an empty-string style attribute. -/
def pEmptyStyle : Page := mkPage emptyStyleElem none

/-- Page on which every page-level wait raises a timeout error. -/
def pNoFrame : Page := ⟨fun _ _ => .error "Timeout 1000ms exceeded", fun _ => .ok ()⟩

/-- Transcription environment where every step succeeds. -/
def envOk : AudioEnv :=
  ⟨5, 6, fun _ _ => .ok (), fun _ => .ok (), fun _ => .ok (), fun _ => .ok (),
   .ok "Fireball", fun _ => true⟩

/-- Transcription environment where the remote recognizer fails. -/
def envFail : AudioEnv :=
  ⟨5, 6, fun _ _ => .ok (), fun _ => .ok (), fun _ => .ok (), fun _ => .ok (),
   .error "recognition failed", fun _ => true⟩

/-!
## Run lemmas: applying each primitive to a filesystem
-/

@[simp] theorem M.pure_run (a : α) (fs : FS) : M.pure a fs = ⟨.ok a, fs, []⟩ := rfl

@[simp] theorem M.throw_run (msg : String) (fs : FS) :
    (M.throw msg : M α) fs = ⟨.error msg, fs, []⟩ := rfl

@[simp] theorem liftE_run (x : Except String α) (fs : FS) : liftE x fs = ⟨x, fs, []⟩ := rfl

@[simp] theorem logA_run (a : Action) (fs : FS) : logA a fs = ⟨.ok (), fs, [a]⟩ := rfl

@[simp] theorem getFS_run (fs : FS) : getFS fs = ⟨.ok fs, fs, []⟩ := rfl

@[simp] theorem modifyFS_run (f : FS → FS) (fs : FS) : modifyFS f fs = ⟨.ok (), f fs, []⟩ := rfl

attribute [simp] M.bind_eq M.pure_eq

@[simp] theorem pageWaitForSelector_run (p : Page) (sel : String) (tmo : Option Nat) (fs : FS) :
    pageWaitForSelector p sel tmo fs =
      ⟨p.waitForSel sel tmo, fs, [.waitForSelector sel tmo none]⟩ := rfl

@[simp] theorem pageWaitForTimeout_run (p : Page) (ms : Nat) (fs : FS) :
    pageWaitForTimeout p ms fs = ⟨p.waitForTO ms, fs, [.waitForTimeout ms]⟩ := rfl

@[simp] theorem frameWaitForSelector_run (f : Frame) (sel : String) (tmo : Option Nat)
    (st : Option String) (fs : FS) :
    frameWaitForSelector f sel tmo st fs =
      ⟨f.waitForSel sel tmo st, fs, [.waitForSelector sel tmo st]⟩ := rfl

@[simp] theorem frameClick_run (f : Frame) (sel : String) (fs : FS) :
    frameClick f sel fs = ⟨f.clickO sel, fs, [.click sel]⟩ := rfl

@[simp] theorem frameFill_run (f : Frame) (sel value : String) (fs : FS) :
    frameFill f sel value fs = ⟨f.fillO sel value, fs, [.fill sel value]⟩ := rfl

@[simp] theorem frameQuerySelector_run (f : Frame) (sel : String) (fs : FS) :
    frameQuerySelector f sel fs = ⟨f.querySel sel, fs, [.querySelector sel]⟩ := rfl

@[simp] theorem elemContentFrame_run (e : Elem) (fs : FS) :
    elemContentFrame e fs = ⟨e.contentF, fs, [.contentFrame]⟩ := rfl

@[simp] theorem elemGetAttribute_run (e : Elem) (attrName : String) (fs : FS) :
    elemGetAttribute e attrName fs = ⟨e.getAttr attrName, fs, [.getAttribute attrName]⟩ := rfl

@[simp] theorem elemIsVisible_run (e : Elem) (fs : FS) :
    elemIsVisible e fs = ⟨e.visible, fs, [.isVisible]⟩ := rfl

/-!
## Compositional lemmas for trace predicates and fs preservation
-/

/-- Every action a computation can ever record satisfies `P`. -/
def TrP (m : M α) (P : Action → Prop) : Prop :=
  ∀ fs : FS, ∀ a ∈ (m fs).tr, P a

theorem TrP_pure (x : α) (P : Action → Prop) : TrP (M.pure x) P := by
  intro fs a ha; simp [M.pure] at ha

theorem TrP_pure2 (x : α) (P : Action → Prop) : TrP (Pure.pure x) P := TrP_pure x P

theorem TrP_throw (msg : String) (P : Action → Prop) : TrP (M.throw msg : M α) P := by
  intro fs a ha; simp [M.throw] at ha

theorem TrP_liftE (x : Except String α) (P : Action → Prop) : TrP (liftE x) P := by
  intro fs a ha; simp [liftE] at ha

theorem TrP_logA {P : Action → Prop} (a : Action) (h : P a) : TrP (logA a) P := by
  intro fs b hb; simp [logA] at hb; subst hb; exact h

theorem TrP_getFS (P : Action → Prop) : TrP getFS P := by
  intro fs a ha; simp [getFS] at ha

theorem TrP_modifyFS (f : FS → FS) (P : Action → Prop) : TrP (modifyFS f) P := by
  intro fs a ha; simp [modifyFS] at ha

theorem TrP_bind {m : M α} {f : α → M β} {P : Action → Prop}
    (hm : TrP m P) (hf : ∀ x, TrP (f x) P) : TrP (m >>= f) P := by
  intro fs a ha
  rw [M.bind_eq] at ha
  rcases h : (m fs).res with e | x
  · rw [M.bind_err f h] at ha
    exact hm fs a ha
  · rw [M.bind_ok f h] at ha
    have ha2 : a ∈ (m fs).tr ++ (f x (m fs).fs).tr := ha
    rcases List.mem_append.mp ha2 with ha3 | ha3
    · exact hm fs a ha3
    · exact hf x (m fs).fs a ha3

theorem TrP_tryCatch {m : M α} {h : String → M α} {P : Action → Prop}
    (hm : TrP m P) (hh : ∀ e, TrP (h e) P) : TrP (M.tryCatch m h) P := by
  intro fs a ha
  rcases hr : (m fs).res with e | x
  · rw [M.tryCatch_err h hr] at ha
    have ha2 : a ∈ (m fs).tr ++ (h e (m fs).fs).tr := ha
    rcases List.mem_append.mp ha2 with ha3 | ha3
    · exact hm fs a ha3
    · exact hh e (m fs).fs a ha3
  · rw [M.tryCatch_ok h hr] at ha
    exact hm fs a ha

theorem TrP_tryFinally {body : M α} {fin : M Unit} {P : Action → Prop}
    (hb : TrP body P) (hf : TrP fin P) : TrP (M.tryFinally body fin) P := by
  intro fs a ha
  rw [M.tryFinally_run] at ha
  have ha2 : a ∈ (body fs).tr ++ (fin (body fs).fs).tr := ha
  rcases List.mem_append.mp ha2 with ha3 | ha3
  · exact hb fs a ha3
  · exact hf (body fs).fs a ha3

theorem TrP_ite {c : Prop} [Decidable c] {m1 m2 : M α} {P : Action → Prop}
    (h1 : TrP m1 P) (h2 : TrP m2 P) : TrP (if c then m1 else m2) P := by
  by_cases hc : c
  · rw [if_pos hc]; exact h1
  · rw [if_neg hc]; exact h2

/-- The computation leaves the filesystem unchanged. -/
def FsId (m : M α) : Prop := ∀ fs : FS, (m fs).fs = fs

theorem FsId_pure (x : α) : FsId (M.pure x) := fun _ => rfl

theorem FsId_pure2 (x : α) : FsId (Pure.pure x : M α) := fun _ => rfl

theorem FsId_throw (msg : String) : FsId (M.throw msg : M α) := fun _ => rfl

theorem FsId_liftE (x : Except String α) : FsId (liftE x) := fun _ => rfl

theorem FsId_logA (a : Action) : FsId (logA a) := fun _ => rfl

theorem FsId_bind {m : M α} {f : α → M β}
    (hm : FsId m) (hf : ∀ x, FsId (f x)) : FsId (m >>= f) := by
  intro fs
  rw [M.bind_eq]
  rcases h : (m fs).res with e | x
  · rw [M.bind_err f h]
    exact hm fs
  · rw [M.bind_ok f h]
    show (f x (m fs).fs).fs = fs
    rw [hf x (m fs).fs, hm fs]

theorem FsId_tryCatch {m : M α} {h : String → M α}
    (hm : FsId m) (hh : ∀ e, FsId (h e)) : FsId (M.tryCatch m h) := by
  intro fs
  rcases hr : (m fs).res with e | x
  · rw [M.tryCatch_err h hr]
    show (h e (m fs).fs).fs = fs
    rw [hh e (m fs).fs, hm fs]
  · rw [M.tryCatch_ok h hr]
    exact hm fs

theorem FsId_ite {c : Prop} [Decidable c] {m1 m2 : M α}
    (h1 : FsId m1) (h2 : FsId m2) : FsId (if c then m1 else m2) := by
  by_cases hc : c
  · rw [if_pos hc]; exact h1
  · rw [if_neg hc]; exact h2

/- TrP for the traced wrappers: the single logged action must satisfy `P`. -/

theorem TrP_pageWaitForSelector {P : Action → Prop} (p : Page) (sel : String)
    (tmo : Option Nat) (h : P (.waitForSelector sel tmo none)) :
    TrP (pageWaitForSelector p sel tmo) P :=
  TrP_bind (TrP_logA _ h) (fun _ => TrP_liftE _ _)

theorem TrP_pageWaitForTimeout {P : Action → Prop} (p : Page) (ms : Nat)
    (h : P (.waitForTimeout ms)) : TrP (pageWaitForTimeout p ms) P :=
  TrP_bind (TrP_logA _ h) (fun _ => TrP_liftE _ _)

theorem TrP_frameWaitForSelector {P : Action → Prop} (f : Frame) (sel : String)
    (tmo : Option Nat) (st : Option String) (h : P (.waitForSelector sel tmo st)) :
    TrP (frameWaitForSelector f sel tmo st) P :=
  TrP_bind (TrP_logA _ h) (fun _ => TrP_liftE _ _)

theorem TrP_frameClick {P : Action → Prop} (f : Frame) (sel : String)
    (h : P (.click sel)) : TrP (frameClick f sel) P :=
  TrP_bind (TrP_logA _ h) (fun _ => TrP_liftE _ _)

theorem TrP_frameFill {P : Action → Prop} (f : Frame) (sel value : String)
    (h : P (.fill sel value)) : TrP (frameFill f sel value) P :=
  TrP_bind (TrP_logA _ h) (fun _ => TrP_liftE _ _)

theorem TrP_frameQuerySelector {P : Action → Prop} (f : Frame) (sel : String)
    (h : P (.querySelector sel)) : TrP (frameQuerySelector f sel) P :=
  TrP_bind (TrP_logA _ h) (fun _ => TrP_liftE _ _)

theorem TrP_elemContentFrame {P : Action → Prop} (e : Elem)
    (h : P .contentFrame) : TrP (elemContentFrame e) P :=
  TrP_bind (TrP_logA _ h) (fun _ => TrP_liftE _ _)

theorem TrP_elemGetAttribute {P : Action → Prop} (e : Elem) (attrName : String)
    (h : P (.getAttribute attrName)) : TrP (elemGetAttribute e attrName) P :=
  TrP_bind (TrP_logA _ h) (fun _ => TrP_liftE _ _)

theorem TrP_elemIsVisible {P : Action → Prop} (e : Elem)
    (h : P .isVisible) : TrP (elemIsVisible e) P :=
  TrP_bind (TrP_logA _ h) (fun _ => TrP_liftE _ _)

/- FsId for the traced wrappers (none of them touch the filesystem). -/

theorem FsId_pageWaitForSelector (p : Page) (sel : String) (tmo : Option Nat) :
    FsId (pageWaitForSelector p sel tmo) := fun _ => rfl

theorem FsId_pageWaitForTimeout (p : Page) (ms : Nat) :
    FsId (pageWaitForTimeout p ms) := fun _ => rfl

theorem FsId_frameWaitForSelector (f : Frame) (sel : String) (tmo : Option Nat)
    (st : Option String) : FsId (frameWaitForSelector f sel tmo st) := fun _ => rfl

theorem FsId_frameClick (f : Frame) (sel : String) : FsId (frameClick f sel) := fun _ => rfl

theorem FsId_frameFill (f : Frame) (sel value : String) :
    FsId (frameFill f sel value) := fun _ => rfl

theorem FsId_frameQuerySelector (f : Frame) (sel : String) :
    FsId (frameQuerySelector f sel) := fun _ => rfl

theorem FsId_elemContentFrame (e : Elem) : FsId (elemContentFrame e) := fun _ => rfl

theorem FsId_elemGetAttribute (e : Elem) (attrName : String) :
    FsId (elemGetAttribute e attrName) := fun _ => rfl

theorem FsId_elemIsVisible (e : Elem) : FsId (elemIsVisible e) := fun _ => rfl

/-!
## Structural lemmas about the status checks
-/

/-- Every action `is_solved` can record satisfies `P`, provided `P` holds of
its four possible lookups. -/
theorem is_solved_trp (p : Page) (P : Action → Prop)
    (h1 : P (.waitForSelector (get_selector "iframe") (some TIMEOUT_SHORT) none))
    (h2 : P .contentFrame)
    (h3 : P (.waitForSelector (get_selector "checkmark") (some TIMEOUT_SHORT) none))
    (h4 : P (.getAttribute "style")) : TrP (is_solved p) P := by
  unfold is_solved
  apply TrP_tryCatch
  · apply TrP_bind (TrP_pageWaitForSelector p _ _ h1)
    intro x
    cases x with
    | none => exact TrP_pure false P
    | some ifr =>
      apply TrP_bind (TrP_elemContentFrame ifr h2)
      intro y
      cases y with
      | none => exact TrP_pure false P
      | some fr =>
        apply TrP_bind (TrP_frameWaitForSelector fr _ _ _ h3)
        intro z
        cases z with
        | none => exact TrP_pure false P
        | some cm =>
          apply TrP_bind (TrP_elemGetAttribute cm _ h4)
          intro st
          exact TrP_pure _ P
  · intro e
    exact TrP_pure false P

/-- Every action `is_detected` can record satisfies `P`, provided `P` holds
of its four possible lookups. -/
theorem is_detected_trp (p : Page) (P : Action → Prop)
    (h1 : P (.waitForSelector (get_selector "challenge_frame") (some TIMEOUT_DETECTION) none))
    (h2 : P .contentFrame)
    (h3 : P (.querySelector (get_selector "error_message")))
    (h4 : P .isVisible) : TrP (is_detected p) P := by
  unfold is_detected
  apply TrP_tryCatch
  · apply TrP_bind (TrP_pageWaitForSelector p _ _ h1)
    intro x
    cases x with
    | none => exact TrP_pure false P
    | some cf =>
      apply TrP_bind (TrP_elemContentFrame cf h2)
      intro y
      cases y with
      | none => exact TrP_pure false P
      | some fr =>
        apply TrP_bind (TrP_frameQuerySelector fr _ h3)
        intro z
        cases z with
        | none => exact TrP_pure false P
        | some em => exact TrP_elemIsVisible em h4
  · intro e
    exact TrP_pure false P

/-- Every action `get_token` can record satisfies `P`, provided `P` holds of
its four possible lookups — in particular both waits carry no timeout. -/
theorem get_token_trp (p : Page) (P : Action → Prop)
    (h1 : P (.waitForSelector (get_selector "challenge_frame") none none))
    (h2 : P .contentFrame)
    (h3 : P (.waitForSelector (get_selector "token") none none))
    (h4 : P (.getAttribute "value")) : TrP (get_token p) P := by
  unfold get_token
  apply TrP_tryCatch
  · apply TrP_bind (TrP_pageWaitForSelector p _ _ h1)
    intro x
    cases x with
    | none => exact TrP_pure none P
    | some cf =>
      apply TrP_bind (TrP_elemContentFrame cf h2)
      intro y
      cases y with
      | none => exact TrP_pure none P
      | some fr =>
        apply TrP_bind (TrP_frameWaitForSelector fr _ _ _ h3)
        intro z
        cases z with
        | none => exact TrP_pure none P
        | some tok => exact TrP_elemGetAttribute tok _ h4
  · intro e
    exact TrP_pure none P

/-- `is_solved` leaves the filesystem unchanged. -/
theorem is_solved_fsid (p : Page) : FsId (is_solved p) := by
  unfold is_solved
  apply FsId_tryCatch
  · apply FsId_bind (FsId_pageWaitForSelector p _ _)
    intro x
    cases x with
    | none => exact FsId_pure false
    | some ifr =>
      apply FsId_bind (FsId_elemContentFrame ifr)
      intro y
      cases y with
      | none => exact FsId_pure false
      | some fr =>
        apply FsId_bind (FsId_frameWaitForSelector fr _ _ _)
        intro z
        cases z with
        | none => exact FsId_pure false
        | some cm =>
          apply FsId_bind (FsId_elemGetAttribute cm _)
          intro st
          exact FsId_pure _
  · intro e
    exact FsId_pure false

/-- `is_detected` leaves the filesystem unchanged. -/
theorem is_detected_fsid (p : Page) : FsId (is_detected p) := by
  unfold is_detected
  apply FsId_tryCatch
  · apply FsId_bind (FsId_pageWaitForSelector p _ _)
    intro x
    cases x with
    | none => exact FsId_pure false
    | some cf =>
      apply FsId_bind (FsId_elemContentFrame cf)
      intro y
      cases y with
      | none => exact FsId_pure false
      | some fr =>
        apply FsId_bind (FsId_frameQuerySelector fr _)
        intro z
        cases z with
        | none => exact FsId_pure false
        | some em => exact FsId_elemIsVisible em
  · intro e
    exact FsId_pure false

/-- Complete characterization of the result of `is_solved`: it never raises,
and yields `true` exactly on the fully successful lookup path with a present
(`some`) style attribute. -/
theorem is_solved_res (p : Page) (fs : FS) :
    (is_solved p fs).res =
      .ok (match p.waitForSel (get_selector "iframe") (some TIMEOUT_SHORT) with
           | .ok (some ifr) =>
             match ifr.contentF with
             | .ok (some fr) =>
               match fr.waitForSel (get_selector "checkmark") (some TIMEOUT_SHORT) none with
               | .ok (some cm) =>
                 match cm.getAttr "style" with
                 | .ok st => st.isSome
                 | .error _ => false
               | .ok none => false
               | .error _ => false
             | .ok none => false
             | .error _ => false
           | .ok none => false
           | .error _ => false) := by
  unfold is_solved
  rcases h1 : p.waitForSel (get_selector "iframe") (some TIMEOUT_SHORT) with e1 | o1
  · simp [M.bind_err, M.tryCatch_err, h1]
  · rcases o1 with _ | ifr
    · simp [M.bind_ok, M.tryCatch_ok, h1]
    · rcases h2 : ifr.contentF with e2 | o2
      · simp [M.bind_ok, M.bind_err, M.tryCatch_err, h1, h2]
      · rcases o2 with _ | fr
        · simp [M.bind_ok, M.tryCatch_ok, h1, h2]
        · rcases h3 : fr.waitForSel (get_selector "checkmark") (some TIMEOUT_SHORT) none with e3 | o3
          · simp [M.bind_ok, M.bind_err, M.tryCatch_err, h1, h2, h3]
          · rcases o3 with _ | cm
            · simp [M.bind_ok, M.tryCatch_ok, h1, h2, h3]
            · rcases h4 : cm.getAttr "style" with e4 | st
              · simp [M.bind_ok, M.bind_err, M.tryCatch_err, h1, h2, h3, h4]
              · simp [M.bind_ok, M.tryCatch_ok, h1, h2, h3, h4]

/-- Complete characterization of the result of `is_detected`: it never
raises, and yields `true` exactly when the error-message element exists and
is visible. -/
theorem is_detected_res (p : Page) (fs : FS) :
    (is_detected p fs).res =
      .ok (match p.waitForSel (get_selector "challenge_frame") (some TIMEOUT_DETECTION) with
           | .ok (some cf) =>
             match cf.contentF with
             | .ok (some fr) =>
               match fr.querySel (get_selector "error_message") with
               | .ok (some em) =>
                 match em.visible with
                 | .ok b => b
                 | .error _ => false
               | .ok none => false
               | .error _ => false
             | .ok none => false
             | .error _ => false
           | .ok none => false
           | .error _ => false) := by
  unfold is_detected
  rcases h1 : p.waitForSel (get_selector "challenge_frame") (some TIMEOUT_DETECTION) with e1 | o1
  · simp [M.bind_err, M.tryCatch_err, h1]
  · rcases o1 with _ | cf
    · simp [M.bind_ok, M.tryCatch_ok, h1]
    · rcases h2 : cf.contentF with e2 | o2
      · simp [M.bind_ok, M.bind_err, M.tryCatch_err, h1, h2]
      · rcases o2 with _ | fr
        · simp [M.bind_ok, M.tryCatch_ok, h1, h2]
        · rcases h3 : fr.querySel (get_selector "error_message") with e3 | o3
          · simp [M.bind_ok, M.bind_err, M.tryCatch_err, h1, h2, h3]
          · rcases o3 with _ | em
            · simp [M.bind_ok, M.tryCatch_ok, h1, h2, h3]
            · rcases h4 : em.visible with e4 | b
              · simp [M.bind_ok, M.bind_err, M.tryCatch_err, h1, h2, h3, h4]
              · simp [M.bind_ok, M.tryCatch_ok, h1, h2, h3, h4]

/-- The ten role names present in the selector dictionary. -/
def knownRoles : List String :=
  ["checkbox", "audio_challenge", "audio_response", "verify_button", "token",
   "iframe", "challenge_frame", "checkmark", "error_message", "audio_source"]

/-- Claim C9: for every role string not among the ten known role names,
`get_selector` returns the empty string (and, being a total function, never
raises); for each of the ten known role names it returns the fixed non-empty
selector of the table. -/
theorem claim_C9 (r : String) :
    (r ∉ knownRoles → get_selector r = "") ∧
    (r ∈ knownRoles → get_selector r ≠ "") := by
  constructor
  · intro h
    simp only [knownRoles, List.mem_cons, List.not_mem_nil, or_false] at h
    push_neg at h
    obtain ⟨h1, h2, h3, h4, h5, h6, h7, h8, h9, h10⟩ := h
    simp [get_selector, h1, h2, h3, h4, h5, h6, h7, h8, h9, h10]
  · intro h
    simp only [knownRoles, List.mem_cons, List.not_mem_nil, or_false] at h
    rcases h with h | h | h | h | h | h | h | h | h | h <;> subst h <;> simp [get_selector]

/-- Claim C9 witness: the unknown role "bogus" yields the empty selector and
the known role "checkbox" yields its fixed non-empty selector. -/
theorem claim_C9_witness :
    get_selector "bogus" = "" ∧ get_selector "checkbox" ≠ "" :=
  ⟨(claim_C9 "bogus").1 (by decide), (claim_C9 "checkbox").2 (by decide)⟩

/-- Claim C7: `is_solved` never raises — its result is always `.ok b` — and
every failure during its lookups (outer frame wait raising or yielding no
element, content frame inaccessible or absent, checkmark wait raising or
yielding no element, style-attribute read raising) makes it return false. -/
theorem claim_C7 (p : Page) (fs : FS) :
    (∃ b, (is_solved p fs).res = .ok b) ∧
    (∀ e, p.waitForSel (get_selector "iframe") (some TIMEOUT_SHORT) = .error e →
      (is_solved p fs).res = .ok false) ∧
    (p.waitForSel (get_selector "iframe") (some TIMEOUT_SHORT) = .ok none →
      (is_solved p fs).res = .ok false) ∧
    (∀ ifr e, p.waitForSel (get_selector "iframe") (some TIMEOUT_SHORT) = .ok (some ifr) →
      ifr.contentF = .error e → (is_solved p fs).res = .ok false) ∧
    (∀ ifr, p.waitForSel (get_selector "iframe") (some TIMEOUT_SHORT) = .ok (some ifr) →
      ifr.contentF = .ok none → (is_solved p fs).res = .ok false) ∧
    (∀ ifr fr e, p.waitForSel (get_selector "iframe") (some TIMEOUT_SHORT) = .ok (some ifr) →
      ifr.contentF = .ok (some fr) →
      fr.waitForSel (get_selector "checkmark") (some TIMEOUT_SHORT) none = .error e →
      (is_solved p fs).res = .ok false) ∧
    (∀ ifr fr, p.waitForSel (get_selector "iframe") (some TIMEOUT_SHORT) = .ok (some ifr) →
      ifr.contentF = .ok (some fr) →
      fr.waitForSel (get_selector "checkmark") (some TIMEOUT_SHORT) none = .ok none →
      (is_solved p fs).res = .ok false) ∧
    (∀ ifr fr cm e, p.waitForSel (get_selector "iframe") (some TIMEOUT_SHORT) = .ok (some ifr) →
      ifr.contentF = .ok (some fr) →
      fr.waitForSel (get_selector "checkmark") (some TIMEOUT_SHORT) none = .ok (some cm) →
      cm.getAttr "style" = .error e → (is_solved p fs).res = .ok false) := by
  refine ⟨⟨_, is_solved_res p fs⟩, ?_, ?_, ?_, ?_, ?_, ?_, ?_⟩
  · intro e h1; rw [is_solved_res]; simp [h1]
  · intro h1; rw [is_solved_res]; simp [h1]
  · intro ifr e h1 h2; rw [is_solved_res]; simp [h1, h2]
  · intro ifr h1 h2; rw [is_solved_res]; simp [h1, h2]
  · intro ifr fr e h1 h2 h3; rw [is_solved_res]; simp [h1, h2, h3]
  · intro ifr fr h1 h2 h3; rw [is_solved_res]; simp [h1, h2, h3]
  · intro ifr fr cm e h1 h2 h3 h4; rw [is_solved_res]; simp [h1, h2, h3, h4]

/-- Claim C7 witness: on a page whose outer-frame wait raises a timeout,
`is_solved` returns false rather than raising. -/
theorem claim_C7_witness : (is_solved pNoFrame fs0).res = .ok false :=
  (claim_C7 pNoFrame fs0).2.1 "Timeout 1000ms exceeded" rfl

/-- Claim C8: `is_detected` never raises; it returns true only if the
error-message element (queried without waiting inside the challenge frame)
exists and is currently visible; and the challenge frame failing to appear
within the very-short detection timeout (raising or yielding no element)
gives false. -/
theorem claim_C8 (p : Page) (fs : FS) :
    (∃ b, (is_detected p fs).res = .ok b) ∧
    ((is_detected p fs).res = .ok true →
      ∃ cf fr em,
        p.waitForSel (get_selector "challenge_frame") (some TIMEOUT_DETECTION) = .ok (some cf) ∧
        cf.contentF = .ok (some fr) ∧
        fr.querySel (get_selector "error_message") = .ok (some em) ∧
        em.visible = .ok true) ∧
    (∀ e, p.waitForSel (get_selector "challenge_frame") (some TIMEOUT_DETECTION) = .error e →
      (is_detected p fs).res = .ok false) ∧
    (p.waitForSel (get_selector "challenge_frame") (some TIMEOUT_DETECTION) = .ok none →
      (is_detected p fs).res = .ok false) := by
  refine ⟨⟨_, is_detected_res p fs⟩, ?_, ?_, ?_⟩
  · intro h
    rw [is_detected_res] at h
    simp only [Except.ok.injEq] at h
    rcases h1 : p.waitForSel (get_selector "challenge_frame") (some TIMEOUT_DETECTION) with e1 | o1
    · rw [h1] at h; simp at h
    · rcases o1 with _ | cf
      · rw [h1] at h; simp at h
      · simp only [h1] at h
        rcases h2 : cf.contentF with e2 | o2
        · simp [h2] at h
        · rcases o2 with _ | fr
          · simp [h2] at h
          · simp only [h2] at h
            rcases h3 : fr.querySel (get_selector "error_message") with e3 | o3
            · simp [h3] at h
            · rcases o3 with _ | em
              · simp [h3] at h
              · simp only [h3] at h
                rcases h4 : em.visible with e4 | b
                · simp [h4] at h
                · simp only [h4] at h
                  exact ⟨cf, fr, em, rfl, h2, h3, by rw [h4, h]⟩
  · intro e h1; rw [is_detected_res]; simp [h1]
  · intro h1; rw [is_detected_res]; simp [h1]

/-- Claim C8 witness: on the detected page, `is_detected` is true and the
theorem yields the existing, visible error-message element; and on a page
whose challenge-frame wait raises, `is_detected` is false. -/
theorem claim_C8_witness :
    (∃ cf fr em,
      pDetected.waitForSel (get_selector "challenge_frame") (some TIMEOUT_DETECTION) =
          .ok (some cf) ∧
      cf.contentF = .ok (some fr) ∧
      fr.querySel (get_selector "error_message") = .ok (some em) ∧
      em.visible = .ok true) ∧
    (is_detected pNoFrame fs0).res = .ok false :=
  ⟨(claim_C8 pDetected fs0).2.1 (by rw [is_detected_res]; rfl),
   (claim_C8 pNoFrame fs0).2.2.1 "Timeout 1000ms exceeded" rfl⟩

/-- Claim C1, corrected: `is_solved` returns true only if the checkmark
element exists and its style attribute is present (`get_attribute` returns a
string, possibly empty); if the attribute is absent it returns false. The
original claim — that an empty-string style attribute yields false — fails,
see the counterexample. -/
theorem claim_C1 (p : Page) (fs : FS) :
    ((is_solved p fs).res = .ok true →
      ∃ ifr fr cm st,
        p.waitForSel (get_selector "iframe") (some TIMEOUT_SHORT) = .ok (some ifr) ∧
        ifr.contentF = .ok (some fr) ∧
        fr.waitForSel (get_selector "checkmark") (some TIMEOUT_SHORT) none = .ok (some cm) ∧
        cm.getAttr "style" = .ok (some st)) ∧
    (∀ ifr fr cm,
      p.waitForSel (get_selector "iframe") (some TIMEOUT_SHORT) = .ok (some ifr) →
      ifr.contentF = .ok (some fr) →
      fr.waitForSel (get_selector "checkmark") (some TIMEOUT_SHORT) none = .ok (some cm) →
      cm.getAttr "style" = .ok none →
      (is_solved p fs).res = .ok false) := by
  constructor
  · intro h
    rw [is_solved_res] at h
    simp only [Except.ok.injEq] at h
    rcases h1 : p.waitForSel (get_selector "iframe") (some TIMEOUT_SHORT) with e1 | o1
    · rw [h1] at h; simp at h
    · rcases o1 with _ | ifr
      · rw [h1] at h; simp at h
      · simp only [h1] at h
        rcases h2 : ifr.contentF with e2 | o2
        · simp [h2] at h
        · rcases o2 with _ | fr
          · simp [h2] at h
          · simp only [h2] at h
            rcases h3 : fr.waitForSel (get_selector "checkmark") (some TIMEOUT_SHORT) none with e3 | o3
            · simp [h3] at h
            · rcases o3 with _ | cm
              · simp [h3] at h
              · simp only [h3] at h
                rcases h4 : cm.getAttr "style" with e4 | st
                · simp [h4] at h
                · simp only [h4, Option.isSome_iff_exists] at h
                  obtain ⟨st2, hst⟩ := h
                  exact ⟨ifr, fr, cm, st2, rfl, h2, h3, by rw [h4, hst]⟩
  · intro ifr fr cm h1 h2 h3 h4
    rw [is_solved_res]; simp [h1, h2, h3, h4]

/-- Claim C1 counterexample: a page whose checkmark exists and carries the
empty string as its style attribute, yet `is_solved` returns true — refuting
"if the checkmark exists but its style attribute is the empty string,
is_solved() returns false". -/
theorem claim_C1_counterexample :
    (anchorFrame emptyStyleElem).waitForSel (get_selector "checkmark") (some TIMEOUT_SHORT) none
        = .ok (some emptyStyleElem) ∧
    emptyStyleElem.getAttr "style" = .ok (some "") ∧
    (is_solved pEmptyStyle fs0).res = .ok true := by
  refine ⟨rfl, rfl, ?_⟩
  rw [is_solved_res]
  rfl

/-!
## Lemmas about the cleanup in the transcription step
-/

/-- The computation never raises. -/
def NeverThrows (m : M α) : Prop := ∀ fs : FS, ∃ a, (m fs).res = .ok a

theorem NeverThrows_pure (x : α) : NeverThrows (M.pure x) := fun _ => ⟨x, rfl⟩

theorem NeverThrows_logA (a : Action) : NeverThrows (logA a) := fun _ => ⟨(), rfl⟩

theorem NeverThrows_getFS : NeverThrows getFS := fun fs => ⟨fs, rfl⟩

theorem NeverThrows_modifyFS (f : FS → FS) : NeverThrows (modifyFS f) := fun _ => ⟨(), rfl⟩

theorem NeverThrows_bind {m : M α} {f : α → M β}
    (hm : NeverThrows m) (hf : ∀ x, NeverThrows (f x)) : NeverThrows (m >>= f) := by
  intro fs
  obtain ⟨x, hx⟩ := hm fs
  obtain ⟨y, hy⟩ := hf x (m fs).fs
  refine ⟨y, ?_⟩
  rw [M.bind_eq, M.bind_ok f hx]
  exact hy

theorem NeverThrows_ite {c : Prop} [Decidable c] {m1 m2 : M α}
    (h1 : NeverThrows m1) (h2 : NeverThrows m2) : NeverThrows (if c then m1 else m2) := by
  by_cases hc : c
  · rw [if_pos hc]; exact h1
  · rw [if_neg hc]; exact h2

/-- The filesystem update of one `for` iteration of the cleanup loop. -/
def cleanupStep (env : AudioEnv) (fs : FS) (p : String) : FS :=
  if fs p then (if env.removeOk p then fs.delete p else fs) else fs

/-- Unfolding one iteration of the cleanup loop. -/
theorem cleanupTemp_cons (env : AudioEnv) (p : String) (rest : List String) (fs : FS) :
    cleanupTemp env (p :: rest) fs =
      ⟨(cleanupTemp env rest (cleanupStep env fs p)).res,
       (cleanupTemp env rest (cleanupStep env fs p)).fs,
       (if fs p then [Action.removeAttempt p] else []) ++
         (cleanupTemp env rest (cleanupStep env fs p)).tr⟩ := by
  by_cases hp : fs p <;> by_cases hr : env.removeOk p <;>
    simp [cleanupTemp, cleanupStep, hp, hr, M.bind_ok]

/-- The `finally:` cleanup never raises (a failing `os.remove` is swallowed). -/
theorem cleanupTemp_nothrow (env : AudioEnv) (ps : List String) :
    NeverThrows (cleanupTemp env ps) := by
  induction ps with
  | nil => exact NeverThrows_pure ()
  | cons p rest ih =>
    intro fs
    rw [cleanupTemp_cons]
    exact ih (cleanupStep env fs p)

/-- Cleanup never resurrects a file: a path absent before stays absent. -/
theorem cleanupTemp_false_mono (env : AudioEnv) (ps : List String) (q : String) :
    ∀ fs : FS, fs q = false → (cleanupTemp env ps fs).fs q = false := by
  induction ps with
  | nil => intro fs h; exact h
  | cons p rest ih =>
    intro fs h
    rw [cleanupTemp_cons]
    apply ih
    unfold cleanupStep FS.delete
    by_cases hp : fs p <;> by_cases hr : env.removeOk p <;> simp [hp, hr, h]

/-- A path in the cleanup list whose removal succeeds is absent afterwards. -/
theorem cleanupTemp_removes (env : AudioEnv) (ps : List String) (q : String)
    (hq : q ∈ ps) (hok : env.removeOk q = true) :
    ∀ fs : FS, (cleanupTemp env ps fs).fs q = false := by
  induction ps with
  | nil => cases hq
  | cons p rest ih =>
    intro fs
    rw [cleanupTemp_cons]
    rcases List.mem_cons.mp hq with hq1 | hq2
    · subst hq1
      apply cleanupTemp_false_mono
      unfold cleanupStep FS.delete
      by_cases hp : fs q <;> simp [hp, hok]
    · exact ih hq2 (cleanupStep env fs p)

/-- Claim C6: whatever the outcome of the transcription body (success or a
failure at download, conversion, recording or remote recognition), the result
of the step is exactly the result of the body — so a failure of the deletion itself
(modelled by `removeOk` being false) never raises out of the step — and each
temp path whose `os.remove` succeeds is absent from the filesystem when the
step returns or propagates its error. -/
theorem claim_C6 (env : AudioEnv) (url : String) (fs : FS) :
    ((process_audio_challenge env url fs).res =
      (processAudioBody env url (mp3Path env) (wavPath env) fs).res) ∧
    (env.removeOk (mp3Path env) = true →
      (process_audio_challenge env url fs).fs (mp3Path env) = false) ∧
    (env.removeOk (wavPath env) = true →
      (process_audio_challenge env url fs).fs (wavPath env) = false) := by
  refine ⟨?_, ?_, ?_⟩
  · rw [process_audio_challenge, M.tryFinally_run]
    obtain ⟨u, hu⟩ := cleanupTemp_nothrow env [mp3Path env, wavPath env]
      (processAudioBody env url (mp3Path env) (wavPath env) fs).fs
    simp [hu]
  · intro hok
    rw [process_audio_challenge, M.tryFinally_run]
    exact cleanupTemp_removes env _ _ (List.mem_cons_self _ _) hok _
  · intro hok
    rw [process_audio_challenge, M.tryFinally_run]
    exact cleanupTemp_removes env _ _
      (List.mem_cons_of_mem _ (List.mem_cons_self _ _)) hok _

/-- Claim C6 witness: with a failing remote recognizer, the step propagates
the failure and neither temp file (`/tmp/5.mp3`, `/tmp/6.wav`) is left on
the filesystem. -/
theorem claim_C6_witness :
    (process_audio_challenge envFail "u" fs0).res = .error "recognition failed" ∧
    (process_audio_challenge envFail "u" fs0).fs (mp3Path envFail) = false ∧
    (process_audio_challenge envFail "u" fs0).fs (wavPath envFail) = false := by
  obtain ⟨h1, h2, h3⟩ := claim_C6 envFail "u" fs0
  exact ⟨by rw [h1]; rfl, h2 rfl, h3 rfl⟩

/-- Claim C1 witness: on the solved page, `is_solved` is true and the
amended theorem yields the checkmark and its present style attribute. -/
theorem claim_C1_witness :
    ∃ ifr fr cm st,
      pSolved.waitForSel (get_selector "iframe") (some TIMEOUT_SHORT) = .ok (some ifr) ∧
      ifr.contentF = .ok (some fr) ∧
      fr.waitForSel (get_selector "checkmark") (some TIMEOUT_SHORT) none = .ok (some cm) ∧
      cm.getAttr "style" = .ok (some st) :=
  (claim_C1 pSolved fs0).1 (by rw [is_solved_res]; rfl)

/-!
## Claims about the control flow of `solveCaptcha`
-/

/-- Actions forbidden after a pure-checkbox pass (claim C3): locating the
challenge frame, clicking the audio button, locating or reading the audio
source, and every transcription action. -/
def c3Forbidden (a : Action) : Bool :=
  match a with
  | .waitForSelector sel _ _ =>
      decide (sel = get_selector "challenge_frame") || decide (sel = get_selector "audio_source")
  | .click sel => decide (sel = get_selector "audio_challenge")
  | .getAttribute n => decide (n = "src")
  | .urlretrieve _ _ => true
  | .fromMp3 _ => true
  | .exportWav _ => true
  | .recordWav _ => true
  | .recognize => true
  | _ => false

/-- Actions forbidden after bot detection (claim C4): locating or reading
the audio source and every transcription action. -/
def c4Forbidden (a : Action) : Bool :=
  match a with
  | .waitForSelector sel _ _ => decide (sel = get_selector "audio_source")
  | .getAttribute n => decide (n = "src")
  | .urlretrieve _ _ => true
  | .fromMp3 _ => true
  | .exportWav _ => true
  | .recordWav _ => true
  | .recognize => true
  | _ => false

/-- Claim C3: if `is_solved` returns true immediately after the checkbox
click, `solveCaptcha` returns success at that point, and its whole trace
contains no challenge-frame lookup, no audio-button click, no audio-source
lookup or read, and no transcription action. -/
theorem claim_C3 (p : Page) (env : AudioEnv) (fs : FS) (ih : Elem) (fr : Frame)
    (cb : Option Elem)
    (h1 : p.waitForSel (get_selector "iframe") (some TIMEOUT_STANDARD) = .ok (some ih))
    (h2 : ih.contentF = .ok (some fr))
    (h3 : fr.waitForSel (get_selector "checkbox") (some TIMEOUT_STANDARD) none = .ok cb)
    (h4 : fr.clickO (get_selector "checkbox") = .ok ())
    (h5 : (is_solved p fs).res = .ok true) :
    (solveCaptcha p env fs).res = .ok () ∧
    ∀ a ∈ (solveCaptcha p env fs).tr, c3Forbidden a = false := by
  have hfsS : ∀ g : FS, (is_solved p g).fs = g := is_solved_fsid p
  have heq : solveCaptcha p env fs =
      ⟨.ok (), fs,
       .waitForSelector (get_selector "iframe") (some TIMEOUT_STANDARD) none ::
       .contentFrame ::
       .waitForSelector (get_selector "checkbox") (some TIMEOUT_STANDARD) none ::
       .click (get_selector "checkbox") :: (is_solved p fs).tr⟩ := by
    simp [solveCaptcha, M.bind_ok, M.bind_err, h1, h2, h3, h4, h5, hfsS]
  refine ⟨by rw [heq], ?_⟩
  intro a ha
  rw [heq] at ha
  simp only [List.mem_cons] at ha
  rcases ha with rfl | rfl | rfl | rfl | ha
  · decide
  · decide
  · decide
  · decide
  · exact is_solved_trp p (fun a => c3Forbidden a = false)
      (by decide) (by decide) (by decide) (by decide) fs a ha

/-- Claim C3 witness: on the page solved by the checkbox click alone,
`solveCaptcha` succeeds and records none of the forbidden actions. -/
theorem claim_C3_witness :
    (solveCaptcha pSolved envOk fs0).res = .ok () ∧
    ∀ a ∈ (solveCaptcha pSolved envOk fs0).tr, c3Forbidden a = false :=
  claim_C3 pSolved envOk fs0 (frameElem (anchorFrame checkedElem)) (anchorFrame checkedElem)
    (some dummyElem) rfl rfl rfl rfl (by rw [is_solved_res]; rfl)

/-- Claim C4: if `is_detected` returns true after the audio-mode click and
the following 300 ms pause, `solveCaptcha` fails with exactly the
bot-detection message — not wrapped in the "Audio challenge failed: " prefix
— and its trace contains no audio-source lookup or read and no transcription
action. -/
theorem claim_C4 (p : Page) (env : AudioEnv) (fs : FS) (ih : Elem) (fr : Frame)
    (cb : Option Elem) (cf : Elem) (fr2 : Frame) (ad : Option Elem)
    (h1 : p.waitForSel (get_selector "iframe") (some TIMEOUT_STANDARD) = .ok (some ih))
    (h2 : ih.contentF = .ok (some fr))
    (h3 : fr.waitForSel (get_selector "checkbox") (some TIMEOUT_STANDARD) none = .ok cb)
    (h4 : fr.clickO (get_selector "checkbox") = .ok ())
    (h5 : (is_solved p fs).res = .ok false)
    (h6 : p.waitForSel (get_selector "challenge_frame") (some TIMEOUT_STANDARD) = .ok (some cf))
    (h7 : cf.contentF = .ok (some fr2))
    (h8 : fr2.waitForSel (get_selector "audio_challenge") (some TIMEOUT_STANDARD) none = .ok ad)
    (h9 : fr2.clickO (get_selector "audio_challenge") = .ok ())
    (h10 : p.waitForTO 300 = .ok ())
    (hdet : (is_detected p fs).res = .ok true) :
    (solveCaptcha p env fs).res = .error "Captcha detected bot behavior" ∧
    ∀ a ∈ (solveCaptcha p env fs).tr, c4Forbidden a = false := by
  have hfsS : ∀ g : FS, (is_solved p g).fs = g := is_solved_fsid p
  have hfsD : ∀ g : FS, (is_detected p g).fs = g := is_detected_fsid p
  have heq : solveCaptcha p env fs =
      ⟨.error "Captcha detected bot behavior", fs,
       ([.waitForSelector (get_selector "iframe") (some TIMEOUT_STANDARD) none,
         .contentFrame,
         .waitForSelector (get_selector "checkbox") (some TIMEOUT_STANDARD) none,
         .click (get_selector "checkbox")] ++ (is_solved p fs).tr ++
        ([.waitForSelector (get_selector "challenge_frame") (some TIMEOUT_STANDARD) none,
          .contentFrame,
          .waitForSelector (get_selector "audio_challenge") (some TIMEOUT_STANDARD) none,
          .click (get_selector "audio_challenge"),
          .waitForTimeout 300] ++ (is_detected p fs).tr))⟩ := by
    simp [solveCaptcha, M.bind_ok, M.bind_err, h1, h2, h3, h4, h5, h6, h7, h8, h9, h10,
      hdet, hfsS, hfsD]
  refine ⟨by rw [heq], ?_⟩
  intro a ha
  rw [heq] at ha
  simp only [List.mem_append, List.mem_cons, List.not_mem_nil, or_false] at ha
  rcases ha with (h | h) | (h | h)
  · rcases h with rfl | rfl | rfl | rfl <;> decide
  · exact is_solved_trp p (fun a => c4Forbidden a = false)
      (by decide) (by decide) (by decide) (by decide) fs a h
  · rcases h with rfl | rfl | rfl | rfl | rfl <;> decide
  · exact is_detected_trp p (fun a => c4Forbidden a = false)
      (by decide) (by decide) (by decide) (by decide) fs a h

/-- Claim C4 witness: on the detected page, `solveCaptcha` fails with
exactly the bot-detection message and records no forbidden action. -/
theorem claim_C4_witness :
    (solveCaptcha pDetected envOk fs0).res = .error "Captcha detected bot behavior" ∧
    ∀ a ∈ (solveCaptcha pDetected envOk fs0).tr, c4Forbidden a = false :=
  claim_C4 pDetected envOk fs0 (frameElem (anchorFrame noStyleElem)) (anchorFrame noStyleElem)
    (some dummyElem) (frameElem (challengeFrameOf (some visibleErrElem)))
    (challengeFrameOf (some visibleErrElem)) (some dummyElem)
    rfl rfl rfl rfl (by rw [is_solved_res]; rfl) rfl rfl rfl rfl rfl
    (by rw [is_detected_res]; rfl)

/-- A `try/except` whose handler immediately re-raises adds nothing to the
trace beyond the trace of the body. -/
theorem tryCatch_tr_throwHandler (m : M α) (f : String → String) (fs : FS) :
    (M.tryCatch m (fun e => M.throw (f e)) fs).tr = (m fs).tr := by
  rcases h : (m fs).res with e | x
  · rw [M.tryCatch_err _ h]
    show (m fs).tr ++ (M.throw (f e) (m fs).fs).tr = (m fs).tr
    simp [M.throw]
  · rw [M.tryCatch_ok _ h]

/-- Claim C2: for every exception `e` raised inside the `try:` block of
`solveCaptcha` — steps 8–12: waiting for the audio-source element, reading
its URL (also when empty or absent), the transcription, filling the
response, clicking verify, and the final solved check, all of which
constitute `audioPhase` — `solveCaptcha` re-raises a single error whose
message is "Audio challenge failed: " followed by the original message. -/
theorem claim_C2 (p : Page) (env : AudioEnv) (fs : FS) (ih : Elem) (fr : Frame)
    (cb : Option Elem) (cf : Elem) (fr2 : Frame) (ad : Option Elem)
    (h1 : p.waitForSel (get_selector "iframe") (some TIMEOUT_STANDARD) = .ok (some ih))
    (h2 : ih.contentF = .ok (some fr))
    (h3 : fr.waitForSel (get_selector "checkbox") (some TIMEOUT_STANDARD) none = .ok cb)
    (h4 : fr.clickO (get_selector "checkbox") = .ok ())
    (h5 : (is_solved p fs).res = .ok false)
    (h6 : p.waitForSel (get_selector "challenge_frame") (some TIMEOUT_STANDARD) = .ok (some cf))
    (h7 : cf.contentF = .ok (some fr2))
    (h8 : fr2.waitForSel (get_selector "audio_challenge") (some TIMEOUT_STANDARD) none = .ok ad)
    (h9 : fr2.clickO (get_selector "audio_challenge") = .ok ())
    (h10 : p.waitForTO 300 = .ok ())
    (hdet : (is_detected p fs).res = .ok false)
    (e : String)
    (haudio : (audioPhase p env fr2 fs).res = .error e) :
    (solveCaptcha p env fs).res = .error ("Audio challenge failed: " ++ e) := by
  have hfsS : ∀ g : FS, (is_solved p g).fs = g := is_solved_fsid p
  have hfsD : ∀ g : FS, (is_detected p g).fs = g := is_detected_fsid p
  simp [solveCaptcha, M.bind_ok, M.bind_err, M.tryCatch_err, h1, h2, h3, h4, h5, h6, h7,
    h8, h9, h10, hdet, haudio, hfsS, hfsD]

/-- Claim C2 witness: with a failing remote recognizer, the transcription
failure surfaces as exactly "Audio challenge failed: recognition failed". -/
theorem claim_C2_witness :
    (solveCaptcha pAudio envFail fs0).res = .error "Audio challenge failed: recognition failed" := by
  have h := claim_C2 pAudio envFail fs0 (frameElem (anchorFrame noStyleElem))
    (anchorFrame noStyleElem) (some dummyElem) (frameElem (challengeFrameOf none))
    (challengeFrameOf none) (some dummyElem)
    rfl rfl rfl rfl (by rw [is_solved_res]; rfl) rfl rfl rfl rfl rfl
    (by rw [is_detected_res]; rfl) "recognition failed" rfl
  rw [h]
  exact congrArg Except.error (by decide)

/-- Under a successful transcription, the trace of the `try:` block: wait
for the audio source, read its URL, the actions of the transcription step, then
fill with the lower-cased text, click verify, pause, and re-check solved. -/
theorem audioPhase_tr_eq (p : Page) (env : AudioEnv) (fs : FS) (fr2 : Frame) (ae : Elem)
    (u t : String)
    (hA1 : fr2.waitForSel (get_selector "audio_source") (some TIMEOUT_STANDARD)
        (some "attached") = .ok (some ae))
    (hA2 : ae.getAttr "src" = .ok (some u))
    (hu : ¬ u = "")
    (hPA : (process_audio_challenge env u fs).res = .ok t)
    (hfill : fr2.fillO (get_selector "audio_response") (strLower t) = .ok ())
    (hclick : fr2.clickO (get_selector "verify_button") = .ok ())
    (hwait : p.waitForTO 400 = .ok ()) :
    (audioPhase p env fr2 fs).tr =
      [Action.waitForSelector (get_selector "audio_source") (some TIMEOUT_STANDARD) (some "attached"),
       Action.getAttribute "src"] ++ (process_audio_challenge env u fs).tr ++
      [Action.fill (get_selector "audio_response") (strLower t),
       Action.click (get_selector "verify_button"),
       Action.waitForTimeout 400] ++
      (is_solved p (process_audio_challenge env u fs).fs).tr := by
  simp [audioPhase, M.bind_ok, M.bind_err, hA1, hA2, hu, hPA, hfill, hclick, hwait,
    is_solved_res]
  split <;> rfl

/-- Claim C5: whenever the transcription step returns text `t`,
`solveCaptcha` fills the response field with exactly the lower-cased `t`,
then immediately clicks the verify control, and only afterwards (after the
400 ms pause) re-checks the solved state — read off the full trace. -/
theorem claim_C5 (p : Page) (env : AudioEnv) (fs : FS) (ih : Elem) (fr : Frame)
    (cb : Option Elem) (cf : Elem) (fr2 : Frame) (ad : Option Elem) (ae : Elem)
    (u t : String)
    (h1 : p.waitForSel (get_selector "iframe") (some TIMEOUT_STANDARD) = .ok (some ih))
    (h2 : ih.contentF = .ok (some fr))
    (h3 : fr.waitForSel (get_selector "checkbox") (some TIMEOUT_STANDARD) none = .ok cb)
    (h4 : fr.clickO (get_selector "checkbox") = .ok ())
    (h5 : (is_solved p fs).res = .ok false)
    (h6 : p.waitForSel (get_selector "challenge_frame") (some TIMEOUT_STANDARD) = .ok (some cf))
    (h7 : cf.contentF = .ok (some fr2))
    (h8 : fr2.waitForSel (get_selector "audio_challenge") (some TIMEOUT_STANDARD) none = .ok ad)
    (h9 : fr2.clickO (get_selector "audio_challenge") = .ok ())
    (h10 : p.waitForTO 300 = .ok ())
    (hdet : (is_detected p fs).res = .ok false)
    (hA1 : fr2.waitForSel (get_selector "audio_source") (some TIMEOUT_STANDARD)
        (some "attached") = .ok (some ae))
    (hA2 : ae.getAttr "src" = .ok (some u))
    (hu : ¬ u = "")
    (hPA : (process_audio_challenge env u fs).res = .ok t)
    (hfill : fr2.fillO (get_selector "audio_response") (strLower t) = .ok ())
    (hclick : fr2.clickO (get_selector "verify_button") = .ok ())
    (hwait : p.waitForTO 400 = .ok ()) :
    (solveCaptcha p env fs).tr =
      [Action.waitForSelector (get_selector "iframe") (some TIMEOUT_STANDARD) none,
       Action.contentFrame,
       Action.waitForSelector (get_selector "checkbox") (some TIMEOUT_STANDARD) none,
       Action.click (get_selector "checkbox")] ++ (is_solved p fs).tr ++
      [Action.waitForSelector (get_selector "challenge_frame") (some TIMEOUT_STANDARD) none,
       Action.contentFrame,
       Action.waitForSelector (get_selector "audio_challenge") (some TIMEOUT_STANDARD) none,
       Action.click (get_selector "audio_challenge"),
       Action.waitForTimeout 300] ++ (is_detected p fs).tr ++
      [Action.waitForSelector (get_selector "audio_source") (some TIMEOUT_STANDARD) (some "attached"),
       Action.getAttribute "src"] ++ (process_audio_challenge env u fs).tr ++
      [Action.fill (get_selector "audio_response") (strLower t),
       Action.click (get_selector "verify_button"),
       Action.waitForTimeout 400] ++
      (is_solved p (process_audio_challenge env u fs).fs).tr := by
  have hfsS : ∀ g : FS, (is_solved p g).fs = g := is_solved_fsid p
  have hfsD : ∀ g : FS, (is_detected p g).fs = g := is_detected_fsid p
  have htr := tryCatch_tr_throwHandler (audioPhase p env fr2)
    (fun e => "Audio challenge failed: " ++ e) fs
  have haTr := audioPhase_tr_eq p env fs fr2 ae u t hA1 hA2 hu hPA hfill hclick hwait
  simp [solveCaptcha, M.bind_ok, M.bind_err, h1, h2, h3, h4, h5, h6, h7, h8, h9, h10,
    hdet, hfsS, hfsD, htr, haTr]

/-- Claim C5 witness: with a transcription returning "Fireball", the solver
fills "fireball" (the lower-cased text), then clicks verify, then re-checks. -/
theorem claim_C5_witness :
    strLower "Fireball" = "fireball" ∧
    (solveCaptcha pAudio envOk fs0).tr =
      [Action.waitForSelector (get_selector "iframe") (some TIMEOUT_STANDARD) none,
       Action.contentFrame,
       Action.waitForSelector (get_selector "checkbox") (some TIMEOUT_STANDARD) none,
       Action.click (get_selector "checkbox")] ++ (is_solved pAudio fs0).tr ++
      [Action.waitForSelector (get_selector "challenge_frame") (some TIMEOUT_STANDARD) none,
       Action.contentFrame,
       Action.waitForSelector (get_selector "audio_challenge") (some TIMEOUT_STANDARD) none,
       Action.click (get_selector "audio_challenge"),
       Action.waitForTimeout 300] ++ (is_detected pAudio fs0).tr ++
      [Action.waitForSelector (get_selector "audio_source") (some TIMEOUT_STANDARD) (some "attached"),
       Action.getAttribute "src"] ++
      (process_audio_challenge envOk "http://x/a.mp3" fs0).tr ++
      [Action.fill (get_selector "audio_response") (strLower "Fireball"),
       Action.click (get_selector "verify_button"),
       Action.waitForTimeout 400] ++
      (is_solved pAudio (process_audio_challenge envOk "http://x/a.mp3" fs0).fs).tr :=
  ⟨rfl,
   claim_C5 pAudio envOk fs0 (frameElem (anchorFrame noStyleElem)) (anchorFrame noStyleElem)
     (some dummyElem) (frameElem (challengeFrameOf none)) (challengeFrameOf none)
     (some dummyElem) audioElem "http://x/a.mp3" "Fireball"
     rfl rfl rfl rfl (by rw [is_solved_res]; rfl) rfl rfl rfl rfl rfl
     (by rw [is_detected_res]; rfl) rfl rfl (by decide) rfl rfl rfl rfl⟩

/-!
## Claim C10: timeout discipline of the element waits
-/

/-- The wait (if the action is one) is bounded by one of the three solver
timeout constants. -/
def waitTimeoutOk (a : Action) : Bool :=
  match a with
  | .waitForSelector _ (some t) _ =>
      decide (t = TIMEOUT_STANDARD) || decide (t = TIMEOUT_SHORT) || decide (t = TIMEOUT_DETECTION)
  | .waitForSelector _ none _ => false
  | _ => true

/-- The wait (if the action is one) carries no timeout argument. -/
def waitUntimed (a : Action) : Bool :=
  match a with
  | .waitForSelector _ tmo _ => tmo.isNone
  | _ => true

theorem cleanupTemp_trp (env : AudioEnv) (P : Action → Prop)
    (h : ∀ q, P (.removeAttempt q)) : ∀ ps, TrP (cleanupTemp env ps) P := by
  intro ps
  induction ps with
  | nil => exact TrP_pure () P
  | cons p rest ih =>
    intro fs a ha
    rw [cleanupTemp_cons] at ha
    have ha2 : a ∈ (if fs p then [Action.removeAttempt p] else []) ++
        (cleanupTemp env rest (cleanupStep env fs p)).tr := ha
    rcases List.mem_append.mp ha2 with h3 | h3
    · by_cases hp : fs p
      · rw [if_pos hp] at h3
        simp only [List.mem_singleton] at h3
        subst h3
        exact h p
      · rw [if_neg hp] at h3
        exact absurd h3 (List.not_mem_nil a)
    · exact ih (cleanupStep env fs p) a h3

theorem processAudioBody_trp (env : AudioEnv) (url mp3 wav : String) (P : Action → Prop)
    (h1 : P (.urlretrieve url mp3)) (h2 : P (.fromMp3 mp3)) (h3 : P (.exportWav wav))
    (h4 : P (.recordWav wav)) (h5 : P .recognize) :
    TrP (processAudioBody env url mp3 wav) P := by
  unfold processAudioBody
  refine TrP_bind (TrP_logA _ h1) fun u1 => ?_
  refine TrP_bind (TrP_liftE _ _) fun u2 => ?_
  refine TrP_bind (TrP_modifyFS _ _) fun u3 => ?_
  refine TrP_bind (TrP_logA _ h2) fun u4 => ?_
  refine TrP_bind (TrP_liftE _ _) fun u5 => ?_
  refine TrP_bind (TrP_logA _ h3) fun u6 => ?_
  refine TrP_bind (TrP_liftE _ _) fun u7 => ?_
  refine TrP_bind (TrP_modifyFS _ _) fun u8 => ?_
  refine TrP_bind (TrP_logA _ h4) fun u9 => ?_
  refine TrP_bind (TrP_liftE _ _) fun u10 => ?_
  refine TrP_bind (TrP_logA _ h5) fun u11 => ?_
  exact TrP_liftE _ _

theorem process_audio_trp (env : AudioEnv) (url : String) (P : Action → Prop)
    (h1 : P (.urlretrieve url (mp3Path env))) (h2 : P (.fromMp3 (mp3Path env)))
    (h3 : P (.exportWav (wavPath env))) (h4 : P (.recordWav (wavPath env)))
    (h5 : P .recognize) (h6 : ∀ q, P (.removeAttempt q)) :
    TrP (process_audio_challenge env url) P := by
  unfold process_audio_challenge
  exact TrP_tryFinally (processAudioBody_trp env url _ _ P h1 h2 h3 h4 h5)
    (cleanupTemp_trp env P h6 _)

theorem audioPhase_trp (p : Page) (env : AudioEnv) (fr2 : Frame) (P : Action → Prop)
    (hw1 : P (.waitForSelector (get_selector "audio_source") (some TIMEOUT_STANDARD)
      (some "attached")))
    (hga : P (.getAttribute "src"))
    (hur : ∀ u, P (.urlretrieve u (mp3Path env)))
    (hm : P (.fromMp3 (mp3Path env)))
    (hx : P (.exportWav (wavPath env)))
    (hrw : P (.recordWav (wavPath env)))
    (hrg : P .recognize)
    (hrm : ∀ q, P (.removeAttempt q))
    (hfill : ∀ v, P (.fill (get_selector "audio_response") v))
    (hclick : P (.click (get_selector "verify_button")))
    (hwait : P (.waitForTimeout 400))
    (hS1 : P (.waitForSelector (get_selector "iframe") (some TIMEOUT_SHORT) none))
    (hS2 : P .contentFrame)
    (hS3 : P (.waitForSelector (get_selector "checkmark") (some TIMEOUT_SHORT) none))
    (hS4 : P (.getAttribute "style")) :
    TrP (audioPhase p env fr2) P := by
  unfold audioPhase
  apply TrP_bind (TrP_frameWaitForSelector _ _ _ _ hw1)
  intro x
  cases x with
  | none => exact TrP_throw _ P
  | some ae =>
    apply TrP_bind (TrP_elemGetAttribute _ _ hga)
    intro y
    cases y with
    | none => exact TrP_throw _ P
    | some u =>
      apply TrP_ite (TrP_throw _ P)
      apply TrP_bind (process_audio_trp env u P (hur u) hm hx hrw hrg hrm)
      intro t
      apply TrP_bind (TrP_frameFill _ _ _ (hfill (strLower t)))
      intro u2
      apply TrP_bind (TrP_frameClick _ _ hclick)
      intro u3
      apply TrP_bind (TrP_pageWaitForTimeout _ _ hwait)
      intro u4
      apply TrP_bind (is_solved_trp p P hS1 hS2 hS3 hS4)
      intro b
      exact TrP_ite (TrP_pure _ P) (TrP_throw _ P)

theorem solveCaptcha_trp (p : Page) (env : AudioEnv) (P : Action → Prop)
    (hc1 : P (.waitForSelector (get_selector "iframe") (some TIMEOUT_STANDARD) none))
    (hc2 : P (.waitForSelector (get_selector "checkbox") (some TIMEOUT_STANDARD) none))
    (hc3 : P (.click (get_selector "checkbox")))
    (hc4 : P (.waitForSelector (get_selector "challenge_frame") (some TIMEOUT_STANDARD) none))
    (hc5 : P (.waitForSelector (get_selector "audio_challenge") (some TIMEOUT_STANDARD) none))
    (hc6 : P (.click (get_selector "audio_challenge")))
    (hc7 : P (.waitForTimeout 300))
    (hS1 : P (.waitForSelector (get_selector "iframe") (some TIMEOUT_SHORT) none))
    (hS2 : P .contentFrame)
    (hS3 : P (.waitForSelector (get_selector "checkmark") (some TIMEOUT_SHORT) none))
    (hS4 : P (.getAttribute "style"))
    (hD1 : P (.waitForSelector (get_selector "challenge_frame") (some TIMEOUT_DETECTION) none))
    (hD3 : P (.querySelector (get_selector "error_message")))
    (hD4 : P .isVisible)
    (hw1 : P (.waitForSelector (get_selector "audio_source") (some TIMEOUT_STANDARD)
      (some "attached")))
    (hga : P (.getAttribute "src"))
    (hur : ∀ u, P (.urlretrieve u (mp3Path env)))
    (hm : P (.fromMp3 (mp3Path env)))
    (hx : P (.exportWav (wavPath env)))
    (hrw : P (.recordWav (wavPath env)))
    (hrg : P .recognize)
    (hrm : ∀ q, P (.removeAttempt q))
    (hfill : ∀ v, P (.fill (get_selector "audio_response") v))
    (hclick : P (.click (get_selector "verify_button")))
    (hwait : P (.waitForTimeout 400)) :
    TrP (solveCaptcha p env) P := by
  unfold solveCaptcha
  apply TrP_bind (TrP_pageWaitForSelector _ _ _ hc1)
  intro x
  cases x with
  | none => exact TrP_throw _ P
  | some ih =>
    apply TrP_bind (TrP_elemContentFrame _ hS2)
    intro y
    cases y with
    | none => exact TrP_throw _ P
    | some fr =>
      apply TrP_bind (TrP_frameWaitForSelector _ _ _ _ hc2)
      intro z
      apply TrP_bind (TrP_frameClick _ _ hc3)
      intro u1
      apply TrP_bind (is_solved_trp p P hS1 hS2 hS3 hS4)
      intro b
      apply TrP_ite (TrP_pure _ P)
      apply TrP_bind (TrP_pageWaitForSelector _ _ _ hc4)
      intro w
      cases w with
      | none => exact TrP_throw _ P
      | some cf =>
        apply TrP_bind (TrP_elemContentFrame _ hS2)
        intro v
        cases v with
        | none => exact TrP_throw _ P
        | some fr2 =>
          apply TrP_bind (TrP_frameWaitForSelector _ _ _ _ hc5)
          intro q
          apply TrP_bind (TrP_frameClick _ _ hc6)
          intro u2
          apply TrP_bind (TrP_pageWaitForTimeout _ _ hc7)
          intro u3
          apply TrP_bind (is_detected_trp p P hD1 hS2 hD3 hD4)
          intro b2
          apply TrP_ite (TrP_throw _ P)
          exact TrP_tryCatch
            (audioPhase_trp p env fr2 P hw1 hga hur hm hx hrw hrg hrm hfill hclick hwait
              hS1 hS2 hS3 hS4)
            (fun e => TrP_throw _ P)

/-- Claim C10: both element waits of `get_token` are issued with no timeout
argument (and under a successful lookup its trace shows exactly those two
waits), while every element wait that `solveCaptcha`, `is_solved` or
`is_detected` can ever record is bounded by one of the three solver timeout
constants (7000 ms, 1000 ms, 50 ms). -/
theorem claim_C10 (p : Page) (env : AudioEnv) (fs : FS) :
    (∀ a ∈ (get_token p fs).tr, waitUntimed a = true) ∧
    (∀ cf fr tok v,
      p.waitForSel (get_selector "challenge_frame") none = .ok (some cf) →
      cf.contentF = .ok (some fr) →
      fr.waitForSel (get_selector "token") none none = .ok (some tok) →
      tok.getAttr "value" = .ok v →
      (get_token p fs).tr =
        [Action.waitForSelector (get_selector "challenge_frame") none none,
         Action.contentFrame,
         Action.waitForSelector (get_selector "token") none none,
         Action.getAttribute "value"]) ∧
    (∀ a ∈ (solveCaptcha p env fs).tr, waitTimeoutOk a = true) ∧
    (∀ a ∈ (is_solved p fs).tr, waitTimeoutOk a = true) ∧
    (∀ a ∈ (is_detected p fs).tr, waitTimeoutOk a = true) := by
  refine ⟨?_, ?_, ?_, ?_, ?_⟩
  · exact get_token_trp p (fun a => waitUntimed a = true) rfl rfl rfl rfl fs
  · intro cf fr tok v hg1 hg2 hg3 hg4
    simp [get_token, M.bind_ok, M.tryCatch_ok, hg1, hg2, hg3, hg4]
  · exact solveCaptcha_trp p env (fun a => waitTimeoutOk a = true)
      rfl rfl rfl rfl rfl rfl rfl rfl rfl rfl rfl rfl rfl rfl rfl rfl
      (fun _ => rfl) rfl rfl rfl rfl (fun _ => rfl) (fun _ => rfl) rfl rfl fs
  · exact is_solved_trp p (fun a => waitTimeoutOk a = true) rfl rfl rfl rfl fs
  · exact is_detected_trp p (fun a => waitTimeoutOk a = true) rfl rfl rfl rfl fs

/-- Claim C10 witness: on the concrete audio page, the trace of `get_token` is
exactly the two untimed waits plus the frame entry and attribute read, and
its first wait satisfies the no-timeout predicate. -/
theorem claim_C10_witness :
    waitUntimed (Action.waitForSelector (get_selector "challenge_frame") none none) = true ∧
    (get_token pAudio fs0).tr =
      [Action.waitForSelector (get_selector "challenge_frame") none none,
       Action.contentFrame,
       Action.waitForSelector (get_selector "token") none none,
       Action.getAttribute "value"] := by
  have h := claim_C10 pAudio envOk fs0
  have heq := h.2.1 (frameElem (challengeFrameOf none)) (challengeFrameOf none)
    dummyElem none rfl rfl rfl rfl
  refine ⟨h.1 _ ?_, heq⟩
  rw [heq]
  simp

end Solver
